import Mathlib

/-!
Shallow embedding of the translation/deployment HTTP service
(src/server.py and src/utils.py) and proofs about its behaviour.

Python values arriving from JSON bodies are modelled by `PyVal`;
Python truthiness, `str.strip`, `str.lower`, `in` (substring) and
`dict` construction are modelled explicitly.  The two external
backends (the local translation model and the hosting provider) are
modelled as oracles passed to the handlers: each handler is a pure
function of the request data and the oracle outcomes.
-/

/-- Values a JSON field can hold after `request.get_json()`; enough of the
Python value universe to express truthiness and the isinstance checks. -/
inductive PyVal where
  | vnone
  | vstr (s : String)
  | vint (n : Int)
  | vbool (b : Bool)
  | vlist (l : List PyVal)

/-- Python truthiness for `PyVal` (`not x` in the source is `!x.truthy`). -/
def PyVal.truthy : PyVal → Bool
  | .vnone => false
  | .vstr s => !(s == "")
  | .vint n => !(n == 0)
  | .vbool b => b
  | .vlist l => !l.isEmpty

/-- `isinstance(x, str)`. -/
def PyVal.isString : PyVal → Bool
  | .vstr _ => true
  | _ => false

/-- The underlying string of a `vstr`; arbitrary default elsewhere
(only read behind an `isString` guard in the source). -/
def PyVal.asStr : PyVal → String
  | .vstr s => s
  | _ => ""

/-- The characters Python `str.strip()` removes, the CPython whitespace
table: 0x09-0x0D, 0x1C-0x1F, space, NEL 0x85, NBSP 0xA0, 0x1680,
0x2000-0x200A, 0x2028, 0x2029, 0x202F, 0x205F and 0x3000. -/
def pyIsSpace (c : Char) : Bool :=
  (decide (9 ≤ c.toNat) && decide (c.toNat ≤ 13)) ||
    (decide (28 ≤ c.toNat) && decide (c.toNat ≤ 31)) ||
    c.toNat == 32 || c.toNat == 133 || c.toNat == 160 || c.toNat == 5760 ||
    (decide (8192 ≤ c.toNat) && decide (c.toNat ≤ 8202)) ||
    c.toNat == 8232 || c.toNat == 8233 ||
    c.toNat == 8239 || c.toNat == 8287 || c.toNat == 12288

/-- Python `str.strip()`. -/
def pyStrip (s : String) : String :=
  String.mk (((s.data.dropWhile pyIsSpace).reverse.dropWhile pyIsSpace).reverse)

/-- Python `str.lower()` on the ASCII fragment used by the language map. -/
def pyLower (s : String) : String :=
  String.mk (s.data.map Char.toLower)

/-- `startsWithChars p l` holds when `p` is an initial segment of `l`. -/
def startsWithChars : List Char → List Char → Bool
  | [], _ => true
  | _ :: _, [] => false
  | a :: as, b :: bs => a == b && startsWithChars as bs

/-- Substring test on character lists (Python `sub in s`). -/
def containsChars (sub : List Char) : List Char → Bool
  | [] => sub.isEmpty
  | l@(_ :: t) => startsWithChars sub l || containsChars sub t

/-- Python `sub in s` for strings. -/
def pyInStr (sub s : String) : Bool :=
  containsChars sub.data s.data

/-- Python `s.endswith(suffixStr)`. -/
def pyEndsWith (s suffixStr : String) : Bool :=
  startsWithChars suffixStr.data.reverse s.data.reverse

/-- src/server.py lines 27-35: the API-key gate.  Returns
`(is_valid, error_message)`.  Invalid when the key is falsy, not a
string, or empty after stripping whitespace. -/
def is_api_key_valid (api_key : PyVal) : Bool × String :=
  if !api_key.truthy || !api_key.isString || pyStrip api_key.asStr == "" then
    (false, "API key is required")
  else
    (true, "")

/-- src/utils.py lines 21-45: the `LANGUAGE_MAP` dict literal, in
insertion order. -/
def LANGUAGE_MAP : List (String × String) :=
  [("as", "Assamese"), ("as-IN", "Assamese"),
   ("bn", "Bengali"), ("bn-IN", "Bengali"),
   ("brx", "Bodo"), ("brx-IN", "Bodo"),
   ("doi", "Dogri"), ("doi-IN", "Dogri"),
   ("gu", "Gujarati"), ("gu-IN", "Gujarati"),
   ("en", "English"), ("en-IN", "English"),
   ("hi", "Hindi"), ("hi-IN", "Hindi"),
   ("kn", "Kannada"), ("kn-IN", "Kannada"),
   ("ks", "Kashmiri"), ("ks-IN", "Kashmiri"),
   ("kok", "Konkani"), ("kok-IN", "Konkani"),
   ("mai", "Maithili"), ("mai-IN", "Maithili"),
   ("ml", "Malayalam"), ("ml-IN", "Malayalam"),
   ("mni", "Manipuri"), ("mni-IN", "Manipuri"),
   ("mr", "Marathi"), ("mr-IN", "Marathi"),
   ("ne", "Nepali"), ("ne-IN", "Nepali"),
   ("or", "Odia"), ("or-IN", "Odia"),
   ("pa", "Punjabi"), ("pa-IN", "Punjabi"),
   ("sa", "Sanskrit"), ("sa-IN", "Sanskrit"),
   ("sat", "Santali"), ("sat-IN", "Santali"),
   ("sd", "Sindhi"), ("sd-IN", "Sindhi"),
   ("ta", "Tamil"), ("ta-IN", "Tamil"),
   ("te", "Telugu"), ("te-IN", "Telugu"),
   ("ur", "Urdu"), ("ur-IN", "Urdu")]

/-- Python dict assignment on an insertion-ordered association list:
an existing key keeps its position and gets the new value, a new key is
appended. -/
def dictSet (l : List (String × String)) (k v : String) : List (String × String) :=
  if l.any (fun p => p.1 == k) then
    l.map (fun p => if p.1 == k then (k, v) else p)
  else
    l ++ [(k, v)]

/-- Python `d.get(k, default)` on an insertion-ordered association list. -/
def dictGet : List (String × String) → String → String → String
  | [], _, d => d
  | (k0, v) :: rest, k, d => if k0 == k then v else dictGet rest k d

/-- src/utils.py line 48: the dict comprehension building
`REVERSE_LANGUAGE_MAP` from `LANGUAGE_MAP`. -/
def buildReverseMap (l : List (String × String)) : List (String × String) :=
  l.foldl (fun acc kv => if pyInStr "-IN" kv.1 then acc else dictSet acc (pyLower kv.2) kv.1) []

/-- src/utils.py line 48: `REVERSE_LANGUAGE_MAP`. -/
def REVERSE_LANGUAGE_MAP : List (String × String) :=
  buildReverseMap LANGUAGE_MAP

/-- The short keys of the language map: those whose key does not contain
the substring "-IN". -/
def shortLanguageCodes : List String :=
  (LANGUAGE_MAP.filter (fun p => !(pyInStr "-IN" p.1))).map Prod.fst

/-- Oracle for the local translation backend: either the decoded model
output, or any exception inside the `try` body of `language_translate`. -/
inductive TranslateBackend where
  | ok (result : String)
  | fail

/-- Oracle for the local detection backend: either the decoded and
stripped model output (the detected language name), or any exception
inside the `try` body of `detect_language`. -/
inductive DetectBackend where
  | ok (detectedName : String)
  | fail

/-- src/utils.py lines 210-284: `language_translate`.  The input check on
lines 221-222 raises before the `try`; every exception inside the `try`
is re-raised (line 284); an empty decoded result raises (lines 276-277);
otherwise the stripped decoded text is returned (line 280).  An
exceptional exit is `Except.error ()`. -/
def language_translate (text : PyVal) (_target_language : String)
    (backend : TranslateBackend) : Except Unit String :=
  if !text.truthy || !text.isString || pyStrip text.asStr == "" then
    Except.error ()
  else
    match backend with
    | .fail => Except.error ()
    | .ok t => if t == "" then Except.error () else Except.ok (pyStrip t)

/-- src/utils.py lines 286-330: `detect_language`.  The input check on
lines 288-289 raises before the `try`; every exception inside the `try`
is swallowed and the default code "en" is returned (lines 328-330);
otherwise the decoded name is stripped, lowercased and looked up in
`REVERSE_LANGUAGE_MAP` with default "en" (lines 319, 324). -/
def detect_language (text : PyVal) (backend : DetectBackend) : Except Unit String :=
  if !text.truthy || !text.isString || pyStrip text.asStr == "" then
    Except.error ()
  else
    Except.ok (match backend with
      | .ok name => dictGet REVERSE_LANGUAGE_MAP (pyLower (pyStrip name)) "en"
      | .fail => "en")

/-- JSON body of POST /api/translate as read by the route:
`data.get('text')`, `data.get('api_key')`,
`data.get('target_language', 'en-IN')` (modelled as `Option`, `none`
meaning the field was absent so the default applies). -/
structure TranslateBody where
  text : PyVal
  api_key : PyVal
  target_language : Option String

/-- Response of POST /api/translate: HTTP status, the `error` field when
present, the `translated_text` field when present. -/
structure TranslateResponse where
  status : Nat
  errorMsg : Option String
  translated_text : Option String
deriving DecidableEq

/-- src/server.py lines 38-90: the /api/translate route.  `body = none`
models a missing or falsy JSON body. -/
def translate_text (body : Option TranslateBody) (backend : TranslateBackend) :
    TranslateResponse :=
  match body with
  | none => ⟨400, some "Request body is required", none⟩
  | some data =>
    if !data.text.truthy then ⟨400, some "'text' field is required", none⟩
    else if !data.api_key.truthy then ⟨400, some "'api_key' field is required", none⟩
    else if !(is_api_key_valid data.api_key).1 then
      ⟨401, some ("API key validation failed: " ++ (is_api_key_valid data.api_key).2), none⟩
    else
      match language_translate data.text (data.target_language.getD "en-IN") backend with
      | .ok t => ⟨200, none, some t⟩
      | .error _ => ⟨500, some "Translation service failed", none⟩

/-- JSON body of POST /api/detect-language as read by the route. -/
structure DetectBody where
  text : PyVal
  api_key : PyVal

/-- Response of POST /api/detect-language: HTTP status, the `error`
field when present, the `language_code` field when present. -/
structure DetectResponse where
  status : Nat
  errorMsg : Option String
  language_code : Option String
deriving DecidableEq

/-- src/server.py lines 93-140: the /api/detect-language route. -/
def detect_language_endpoint (body : Option DetectBody) (backend : DetectBackend) :
    DetectResponse :=
  match body with
  | none => ⟨400, some "Request body is required", none⟩
  | some data =>
    if !data.text.truthy then ⟨400, some "'text' field is required", none⟩
    else if !data.api_key.truthy then ⟨400, some "'api_key' field is required", none⟩
    else if !(is_api_key_valid data.api_key).1 then
      ⟨401, some ("API key validation failed: " ++ (is_api_key_valid data.api_key).2), none⟩
    else
      match detect_language data.text backend with
      | .ok code => ⟨200, none, some code⟩
      | .error _ => ⟨500, some "Language detection service failed", none⟩

/-- A file-system entry under the extraction directory: a file with its
byte contents, or a directory with its listing (children in `os.listdir`
order, names within one directory distinct). -/
inductive Entry where
  | file (bytes : List Nat)
  | dir (children : List (String × Entry))

/-- The files of one directory listing, in listdir order (the `files`
component of one `os.walk` step). -/
def listingFiles : List (String × Entry) → List (String × List Nat)
  | [] => []
  | (n, Entry.file b) :: rest => (n, b) :: listingFiles rest
  | (_, Entry.dir _) :: rest => listingFiles rest

mutual
/-- The files of a whole tree in `os.walk` top-down order: the files of
the current directory first, then the files of each subdirectory in
listdir order, recursively.  Each file is paired with its bytes; only
its base name matters to the extension test. -/
def walkFiles (l : List (String × Entry)) : List (String × List Nat) :=
  listingFiles l ++ walkSubdirs l

/-- The recursive part of `walkFiles`: descend into each subdirectory in
listdir order. -/
def walkSubdirs : List (String × Entry) → List (String × List Nat)
  | [] => []
  | (_, Entry.file _) :: rest => walkSubdirs rest
  | (_, Entry.dir cs) :: rest => walkFiles cs ++ walkSubdirs rest
end

/-- `os.path.exists(os.path.join(root, name))`: some entry (file or
directory) with that name exists at top level. -/
def hasEntry (l : List (String × Entry)) (name : String) : Bool :=
  l.any (fun p => p.1 == name)

/-- `lookupEntry l name` returns the top-level entry named `name`. -/
def lookupEntry : List (String × Entry) → String → Option Entry
  | [], _ => none
  | (n, e) :: rest, k => if n == k then some e else lookupEntry rest k

/-- src/server.py line 226: `filename.lower().endswith(('.html', '.htm'))`. -/
def isHtmlName (s : String) : Bool :=
  pyEndsWith (pyLower s) ".html" || pyEndsWith (pyLower s) ".htm"

/-- src/server.py lines 203-215: flatten single-root nesting.  If the
extraction root lists exactly one entry and it is a directory, its
children are moved up and the directory removed; otherwise the tree is
left as is. -/
def flattenSingleRoot : List (String × Entry) → List (String × Entry)
  | [(_, Entry.dir cs)] => cs
  | l => l

/-- src/server.py lines 223-227: all HTML files of the tree in walk
order. -/
def htmlFilesOf (l : List (String × Entry)) : List (String × List Nat) :=
  (walkFiles l).filter (fun p => isHtmlName p.1)

/-- src/server.py lines 217-234: guarantee an entry point.  When no
`index.html` exists at the root, the first HTML file in walk order is
copied to the root as `index.html` (modelled as appending the new entry);
with no HTML file at all the tree is unchanged and the pipeline
continues. -/
def ensureIndexHtml (l : List (String × Entry)) : List (String × Entry) :=
  if hasEntry l "index.html" then l
  else
    match htmlFilesOf l with
    | [] => l
    | (_, b) :: _ => l ++ [("index.html", Entry.file b)]

/-- The two tree-normalisation steps of the deployment pipeline in
order: flatten, then guarantee an entry point. -/
def processExtractedTree (l : List (String × Entry)) : List (String × Entry) :=
  ensureIndexHtml (flattenSingleRoot l)

/-- Outcome of one outbound `requests.post` call followed by
`raise_for_status()`: success; an HTTP error status with the response
body (`e.response` is not `None`); or a transport failure with no
response attached (`e.response is None`). -/
inductive HttpOutcome where
  | ok
  | httpError (status : Nat) (body : String)
  | netError

/-- One /deploy request together with the oracle outcomes of its
environment reads and outbound calls. -/
structure DeployEnv where
  /-- `request.form.get('api_key')`. -/
  formApiKey : Option String
  /-- `request.headers.get('X-API-Key')`. -/
  headerApiKey : Option String
  /-- `'zip_file' in request.files`. -/
  hasZipFile : Bool
  /-- `zip_file.filename == ''`. -/
  filenameEmpty : Bool
  /-- `os.getenv("NETLIFY_PAT")`. -/
  netlifyPat : Option String
  /-- whether the uploaded bytes form a valid zip archive. -/
  zipValid : Bool
  /-- the tree extracted from the archive when it is valid. -/
  zipTree : List (String × Entry)
  /-- outcome of the site-creation call. -/
  createOutcome : HttpOutcome
  /-- outcome of the deploy upload call. -/
  deployOutcome : HttpOutcome
  /-- whether a statement of the `try` after both outbound calls
  succeeded raises, such as the JSON decoding of the deploy response at
  line 271 (the generic exception path, lines 299-301). -/
  lateException : Bool
  /-- whether the `shutil.rmtree` of the `finally` succeeds
  (lines 304-309; its failure is swallowed with a warning). -/
  rmtreeOk : Bool

/-- What a /deploy execution produced, beyond the HTTP response: whether
the scoped temporary directory was created and removed, which provider
calls were made, and the processed tree that was re-zipped. -/
structure DeployResult where
  status : Nat
  errorMsg : Option String
  details : Option String
  tempCreated : Bool
  tempRemoved : Bool
  createCalled : Bool
  deployCalled : Bool
  processedTree : Option (List (String × Entry))

/-- src/server.py line 153: `request.form.get('api_key') or
request.headers.get('X-API-Key')` (a falsy form value falls through to
the header). -/
def resolvedApiKey (env : DeployEnv) : Option String :=
  match env.formApiKey with
  | some s => if s == "" then env.headerApiKey else some s
  | none => env.headerApiKey

/-- Exit of the `try` block of the /deploy handler: the response
produced, which provider calls were made, and the processed tree.  The
temporary directory is created by the first statement of the `try`
(line 176), so every such exit has it created. -/
structure TryExit where
  status : Nat
  errorMsg : Option String
  details : Option String
  createCalled : Bool
  deployCalled : Bool
  processedTree : Option (List (String × Entry))

/-- src/server.py lines 178-301: the body of the `try` once the
temporary directory exists, together with its three `except` clauses.
An invalid archive raises `BadZipFile` before either provider call
(400, lines 285-287); a failed outbound call maps through the
`RequestException` clause (lines 288-298); `lateEx` is the oracle for
the generic exception clause (lines 299-301), raised by a statement
after both outbound calls succeeded, such as the JSON decoding of the
deploy response at line 271. -/
def deployTryBody (zipValid : Bool) (tree : List (String × Entry))
    (createO deployO : HttpOutcome) (lateEx : Bool) : TryExit :=
  if !zipValid then ⟨400, some "Invalid zip file provided", none, false, false, none⟩
  else
    let processed := processExtractedTree tree
    match createO with
    | .httpError c body =>
      ⟨c, some "Failed to deploy to Netlify.", some body, true, false, some processed⟩
    | .netError =>
      ⟨500, some "Deployment failed: connection error", none, true, false, some processed⟩
    | .ok =>
      match deployO with
      | .httpError c body =>
        ⟨c, some "Failed to deploy to Netlify.", some body, true, true, some processed⟩
      | .netError =>
        ⟨500, some "Deployment failed: connection error", none, true, true, some processed⟩
      | .ok =>
        if lateEx then
          ⟨500, some "Deployment failed: unexpected error", none, true, true, some processed⟩
        else ⟨200, none, none, true, true, some processed⟩

/-- src/server.py lines 302-309: the `finally`.  It runs on every exit
of the `try`: the created directory still exists, `shutil.rmtree` is
attempted, and a cleanup failure is swallowed with a warning, so the
directory ends up removed exactly when the rmtree call succeeds; the
response is unaffected either way. -/
def runFinally (e : TryExit) (rmtreeOk : Bool) : DeployResult :=
  ⟨e.status, e.errorMsg, e.details, true, rmtreeOk, e.createCalled, e.deployCalled,
    e.processedTree⟩

/-- src/server.py lines 159-309: the /deploy handler from the zip-file
check on.  Factored out because it reads nothing of the API key.  The
three pre-`try` rejections never create the directory; every path that
enters the `try` goes through the `finally`. -/
def deployAfterGate (hasZip filenameEmpty : Bool) (pat : Option String)
    (zipValid : Bool) (tree : List (String × Entry))
    (createO deployO : HttpOutcome) (lateEx rmtreeOk : Bool) : DeployResult :=
  if !hasZip then ⟨400, some "No zip file provided", none, false, false, false, false, none⟩
  else if filenameEmpty then ⟨400, some "No selected file", none, false, false, false, false, none⟩
  else
    match pat with
    | none => ⟨500, some "Server is not configured for deployments.", none, false, false, false, false, none⟩
    | some _ => runFinally (deployTryBody zipValid tree createO deployO lateEx) rmtreeOk

/-- src/server.py lines 143-309: the /deploy handler.  The key is
validated only when it is truthy (lines 154-157); the temporary
directory is created inside the `try` and its removal attempted in the
`finally` (lines 176, 302-309). -/
def deploy_to_netlify (env : DeployEnv) : DeployResult :=
  match resolvedApiKey env with
  | some s =>
    if s == "" then
      deployAfterGate env.hasZipFile env.filenameEmpty env.netlifyPat env.zipValid
        env.zipTree env.createOutcome env.deployOutcome env.lateException env.rmtreeOk
    else if (is_api_key_valid (.vstr s)).1 then
      deployAfterGate env.hasZipFile env.filenameEmpty env.netlifyPat env.zipValid
        env.zipTree env.createOutcome env.deployOutcome env.lateException env.rmtreeOk
    else
      ⟨401, some ("API key validation failed: " ++ (is_api_key_valid (.vstr s)).2),
        none, false, false, false, false, none⟩
  | none =>
    deployAfterGate env.hasZipFile env.filenameEmpty env.netlifyPat env.zipValid
      env.zipTree env.createOutcome env.deployOutcome env.lateException env.rmtreeOk

/-- The /deploy key gate lets the request through: the resolved key is
absent, falsy, or passes `is_api_key_valid`. -/
def deployGatePasses (env : DeployEnv) : Bool :=
  match resolvedApiKey env with
  | some s => s == "" || (is_api_key_valid (.vstr s)).1
  | none => true

/-! ## Helper lemmas -/

/-- Stripping the empty string yields the empty string. -/
theorem pyStrip_empty : pyStrip "" = "" := rfl

/-- A `dict.get` with a default either returns the default or one of the
values stored in the dict. -/
theorem dictGet_default_or_mem (l : List (String × String)) (k d : String) :
    dictGet l k d = d ∨ dictGet l k d ∈ l.map Prod.snd := by
  induction l with
  | nil => exact Or.inl rfl
  | cons p rest ih =>
    obtain ⟨k0, v⟩ := p
    by_cases h : (k0 == k) = true
    · right; simp [dictGet, h]
    · rcases ih with h1 | h1
      · exact Or.inl (by simp [dictGet, h, h1])
      · right
        simp only [dictGet, h, if_false, List.map_cons, List.mem_cons]
        exact Or.inr h1

/-- Every value of `REVERSE_LANGUAGE_MAP` is a short key of
`LANGUAGE_MAP`. -/
theorem reverse_map_values_short :
    ∀ v ∈ REVERSE_LANGUAGE_MAP.map Prod.snd, v ∈ shortLanguageCodes := by decide

/-! ## Claim C8 -/

/-- Claim C8: the gate `is_api_key_valid` returns invalid with the
non-empty reason exactly when the candidate is falsy, not a string, or a
string that is empty after stripping whitespace, and returns
`(true, "")` for every other string.  The embedding is a pure function,
so the gate has no side effects. -/
theorem api_key_gate_spec (v : PyVal) :
    ((is_api_key_valid v).1 = false ∧ (is_api_key_valid v).2 ≠ "" ↔
      v.truthy = false ∨ v.isString = false ∨ ∃ s, v = PyVal.vstr s ∧ pyStrip s = "") ∧
    (∀ s, v = PyVal.vstr s → pyStrip s ≠ "" → is_api_key_valid v = (true, "")) := by
  constructor
  · cases v with
    | vnone => simp [is_api_key_valid, PyVal.truthy, PyVal.isString, PyVal.asStr]
    | vstr s =>
      constructor
      · intro h
        refine Or.inr (Or.inr ⟨s, rfl, ?_⟩)
        by_contra hw
        have hs : s ≠ "" := fun he => hw (by rw [he]; exact pyStrip_empty)
        have hval : is_api_key_valid (PyVal.vstr s) = (true, "") := by
          simp [is_api_key_valid, PyVal.truthy, PyVal.isString, PyVal.asStr, hs, hw]
        rw [hval] at h
        exact absurd h.1 (by decide)
      · rintro (h | h | ⟨s', hs', hw⟩)
        · have he : s = "" := by simpa [PyVal.truthy] using h
          subst he
          simp [is_api_key_valid, PyVal.truthy, PyVal.isString, PyVal.asStr]
        · simp [PyVal.isString] at h
        · injection hs' with he
          subst he
          simp [is_api_key_valid, PyVal.truthy, PyVal.isString, PyVal.asStr, hw]
    | vint n => simp [is_api_key_valid, PyVal.truthy, PyVal.isString, PyVal.asStr]
    | vbool b => simp [is_api_key_valid, PyVal.truthy, PyVal.isString, PyVal.asStr]
    | vlist l => simp [is_api_key_valid, PyVal.truthy, PyVal.isString, PyVal.asStr]
  · rintro s rfl hw
    have hs : s ≠ "" := fun he => hw (by rw [he]; exact pyStrip_empty)
    simp [is_api_key_valid, PyVal.truthy, PyVal.isString, PyVal.asStr, hs, hw]

/-- Witness for C8 at concrete keys: the whitespace-only key " " is
invalid and the key "k" is valid with an empty reason. -/
theorem api_key_gate_spec_witness :
    (is_api_key_valid (PyVal.vstr " ")).1 = false ∧
    is_api_key_valid (PyVal.vstr "k") = (true, "") :=
  ⟨((api_key_gate_spec (PyVal.vstr " ")).1.mpr
      (Or.inr (Or.inr ⟨" ", rfl, rfl⟩))).1,
    (api_key_gate_spec (PyVal.vstr "k")).2 "k" rfl (by decide)⟩

/-! ## Claim C9 -/

/-- Claim C9: whenever `detect_language` returns normally its result is
one of the short keys of the language map or the default "en". -/
theorem detect_language_code_set (t : PyVal) (b : DetectBackend) (r : String)
    (h : detect_language t b = Except.ok r) :
    r ∈ shortLanguageCodes ∨ r = "en" := by
  unfold detect_language at h
  by_cases hc : (!t.truthy || !t.isString || pyStrip t.asStr == "") = true
  · rw [if_pos hc] at h
    exact absurd h (by simp)
  · rw [if_neg hc] at h
    injection h with h3
    cases b with
    | fail => exact Or.inr h3.symm
    | ok name =>
      rcases dictGet_default_or_mem REVERSE_LANGUAGE_MAP (pyLower (pyStrip name)) "en"
        with hd | hm
      · right; rw [← h3]; exact hd
      · left; rw [← h3]; exact reverse_map_values_short _ hm

/-- Witness for C9: the backend answer "Hindi" maps to the short code
"hi", which is in the allowed set. -/
theorem detect_language_code_set_witness :
    detect_language (PyVal.vstr "hello") (DetectBackend.ok "Hindi") = Except.ok "hi" ∧
    ("hi" ∈ shortLanguageCodes ∨ "hi" = "en") :=
  ⟨rfl, detect_language_code_set (PyVal.vstr "hello") (DetectBackend.ok "Hindi") "hi" rfl⟩

/-! ## Claim C10 -/

/-- Claim C10: a whitespace-only but non-empty text with a valid key
passes the route's falsy-text check (the text is truthy), the adapter
rejects it by raising, and POST /api/translate answers 500, not 400 -
whatever the backend would have said. -/
theorem translate_whitespace_text_500 (b : TranslateBackend) :
    (translate_text (some ⟨PyVal.vstr " ", PyVal.vstr "secret-key", none⟩) b).status = 500 ∧
    (translate_text (some ⟨PyVal.vstr " ", PyVal.vstr "secret-key", none⟩) b).status ≠ 400 ∧
    PyVal.truthy (PyVal.vstr " ") = true ∧
    language_translate (PyVal.vstr " ") "en-IN" b = Except.error () := by
  have h : translate_text (some ⟨PyVal.vstr " ", PyVal.vstr "secret-key", none⟩) b =
      ⟨500, some "Translation service failed", none⟩ := rfl
  exact ⟨by rw [h], by rw [h]; decide, rfl, rfl⟩

/-- Truthiness of a string value. -/
theorem truthy_vstr (s : String) : (PyVal.vstr s).truthy = !(s == "") := rfl

/-- Truthiness of the absent value. -/
theorem truthy_vnone : PyVal.vnone.truthy = false := rfl

/-! ## Claim C1 -/

/-- Counterexample to C1 as stated: with the api_key field missing,
POST /api/translate answers 400, not 401, and /deploy skips key
validation altogether and proceeds to a 200 deployment. -/
theorem gated_401_counterexample :
    (translate_text (some ⟨PyVal.vstr "hello", PyVal.vnone, none⟩) TranslateBackend.fail).status
      = 400 ∧
    (translate_text (some ⟨PyVal.vstr "hello", PyVal.vnone, none⟩) TranslateBackend.fail).status
      ≠ 401 ∧
    (deploy_to_netlify ⟨none, none, true, false, some "tok", true,
      [("index.html", Entry.file [104])], HttpOutcome.ok, HttpOutcome.ok, false, true⟩).status = 200 ∧
    (deploy_to_netlify ⟨none, none, true, false, some "tok", true,
      [("index.html", Entry.file [104])], HttpOutcome.ok, HttpOutcome.ok, false, true⟩).status ≠ 401 :=
  ⟨rfl, by decide, rfl, by decide⟩

/-- Amended C1: a whitespace-only non-empty api_key yields 401 on all
three gated endpoints; a missing api_key yields 400 on /api/translate
and /api/detect-language, while /deploy performs no key check at all
(its behaviour with no key equals its behaviour with a valid key). -/
theorem gated_401_amended :
    (∀ (t : PyVal) (b : TranslateBackend) (s : String), t.truthy = true → s ≠ "" →
      pyStrip s = "" →
      (translate_text (some ⟨t, PyVal.vstr s, none⟩) b).status = 401) ∧
    (∀ (t : PyVal) (b : DetectBackend) (s : String), t.truthy = true → s ≠ "" →
      pyStrip s = "" →
      (detect_language_endpoint (some ⟨t, PyVal.vstr s⟩) b).status = 401) ∧
    (∀ (env : DeployEnv) (s : String), env.formApiKey = some s → s ≠ "" → pyStrip s = "" →
      (deploy_to_netlify env).status = 401) ∧
    (∀ (t : PyVal) (b : TranslateBackend), t.truthy = true →
      (translate_text (some ⟨t, PyVal.vnone, none⟩) b).status = 400) ∧
    (∀ (t : PyVal) (b : DetectBackend), t.truthy = true →
      (detect_language_endpoint (some ⟨t, PyVal.vnone⟩) b).status = 400) ∧
    (∀ (env : DeployEnv) (k : String), env.formApiKey = none → env.headerApiKey = none →
      pyStrip k ≠ "" →
      deploy_to_netlify env = deploy_to_netlify { env with formApiKey := some k }) := by
  refine ⟨?_, ?_, ?_, ?_, ?_, ?_⟩
  · intro t b s ht hs hw
    simp [translate_text, ht, is_api_key_valid, truthy_vstr, PyVal.isString, PyVal.asStr,
      hs, hw]
  · intro t b s ht hs hw
    simp [detect_language_endpoint, ht, is_api_key_valid, truthy_vstr, PyVal.isString,
      PyVal.asStr, hs, hw]
  · intro env s hform hs hw
    simp [deploy_to_netlify, resolvedApiKey, hform, hs, is_api_key_valid, PyVal.truthy,
      PyVal.isString, PyVal.asStr, hw]
  · intro t b ht
    simp [translate_text, ht, truthy_vnone]
  · intro t b ht
    simp [detect_language_endpoint, ht, truthy_vnone]
  · intro env k hform hheader hkw
    have hk : k ≠ "" := fun he => hkw (by rw [he]; exact pyStrip_empty)
    simp [deploy_to_netlify, resolvedApiKey, hform, hheader, hk, is_api_key_valid,
      PyVal.truthy, PyVal.isString, PyVal.asStr, hkw]

/-- Witness for the amended C1 at concrete requests. -/
theorem gated_401_amended_witness :
    (translate_text (some ⟨PyVal.vstr "hi", PyVal.vstr " ", none⟩) TranslateBackend.fail).status
      = 401 ∧
    (detect_language_endpoint (some ⟨PyVal.vstr "hi", PyVal.vstr " "⟩) DetectBackend.fail).status
      = 401 ∧
    (deploy_to_netlify ⟨some " ", none, true, false, some "tok", true, [],
      HttpOutcome.ok, HttpOutcome.ok, false, true⟩).status = 401 ∧
    (translate_text (some ⟨PyVal.vstr "hi", PyVal.vnone, none⟩) TranslateBackend.fail).status
      = 400 ∧
    (detect_language_endpoint (some ⟨PyVal.vstr "hi", PyVal.vnone⟩) DetectBackend.fail).status
      = 400 ∧
    deploy_to_netlify ⟨none, none, true, false, some "tok", true, [],
      HttpOutcome.ok, HttpOutcome.ok, false, true⟩ =
      deploy_to_netlify ⟨some "abc", none, true, false, some "tok", true, [],
        HttpOutcome.ok, HttpOutcome.ok, false, true⟩ :=
  ⟨gated_401_amended.1 (PyVal.vstr "hi") TranslateBackend.fail " " rfl (by decide) rfl,
   gated_401_amended.2.1 (PyVal.vstr "hi") DetectBackend.fail " " rfl (by decide) rfl,
   gated_401_amended.2.2.1 ⟨some " ", none, true, false, some "tok", true, [],
     HttpOutcome.ok, HttpOutcome.ok, false, true⟩ " " rfl (by decide) rfl,
   gated_401_amended.2.2.2.1 (PyVal.vstr "hi") TranslateBackend.fail rfl,
   gated_401_amended.2.2.2.2.1 (PyVal.vstr "hi") DetectBackend.fail rfl,
   gated_401_amended.2.2.2.2.2 ⟨none, none, true, false, some "tok", true, [],
     HttpOutcome.ok, HttpOutcome.ok, false, true⟩ "abc" rfl rfl (by decide)⟩

/-! ## Claim C2 -/

/-- Counterexample to C2 as stated: with non-empty text, a valid key and
a failing backend, POST /api/detect-language answers 200 with the
substitute code "en", not 500. -/
theorem detect_backend_failure_counterexample :
    detect_language_endpoint (some ⟨PyVal.vstr "hello", PyVal.vstr "good-key"⟩)
      DetectBackend.fail = ⟨200, none, some "en"⟩ ∧
    (detect_language_endpoint (some ⟨PyVal.vstr "hello", PyVal.vstr "good-key"⟩)
      DetectBackend.fail).status ≠ 500 :=
  ⟨rfl, by decide⟩

/-- Amended C2: on the detection path with non-whitespace text and a
valid api_key, a backend failure is swallowed by the adapter, which
falls back to the default code, so the endpoint answers 200 with
language_code "en" rather than a 500 service error. -/
theorem detect_backend_failure_amended (txt key : String)
    (ht : pyStrip txt ≠ "") (hk : pyStrip key ≠ "") :
    detect_language_endpoint (some ⟨PyVal.vstr txt, PyVal.vstr key⟩) DetectBackend.fail =
      ⟨200, none, some "en"⟩ := by
  have htne : txt ≠ "" := fun he => ht (by rw [he]; exact pyStrip_empty)
  have hkne : key ≠ "" := fun he => hk (by rw [he]; exact pyStrip_empty)
  simp [detect_language_endpoint, detect_language, is_api_key_valid, PyVal.truthy,
    PyVal.isString, PyVal.asStr, htne, hkne, ht, hk]

/-- Witness for the amended C2 at a concrete request. -/
theorem detect_backend_failure_amended_witness :
    detect_language_endpoint (some ⟨PyVal.vstr "hello", PyVal.vstr "good-key"⟩)
      DetectBackend.fail = ⟨200, none, some "en"⟩ :=
  detect_backend_failure_amended "hello" "good-key" (by decide) (by decide)

/-! ## Claim C3 -/

/-- Claim C3: with exactly one top-level entry that is a directory, the
flattening step moves its children to the root and drops the directory;
any other shape is left unchanged; and a zip holding only
project/index.html has index.html at the root after processing. -/
theorem flatten_single_root_spec :
    (∀ (n : String) (cs : List (String × Entry)),
      flattenSingleRoot [(n, Entry.dir cs)] = cs) ∧
    (∀ (root : List (String × Entry)),
      (¬ ∃ n cs, root = [(n, Entry.dir cs)]) → flattenSingleRoot root = root) ∧
    (∀ (bytes : List Nat),
      hasEntry (processExtractedTree
        [("project", Entry.dir [("index.html", Entry.file bytes)])]) "index.html" = true) := by
  refine ⟨fun n cs => rfl, ?_, fun bytes => rfl⟩
  intro root h
  rcases root with _ | ⟨⟨n, e⟩, rest⟩
  · rfl
  · rcases rest with _ | ⟨y, rest2⟩
    · rcases e with b | cs
      · rfl
      · exact absurd ⟨n, cs, rfl⟩ h
    · rcases e with b | cs <;> rfl

/-- Witness for C3: flattening leaves a two-entry root unchanged. -/
theorem flatten_single_root_spec_witness :
    flattenSingleRoot [("a", Entry.file [0]), ("b", Entry.file [1])] =
      [("a", Entry.file [0]), ("b", Entry.file [1])] :=
  flatten_single_root_spec.2.1 _ (by rintro ⟨n, cs, h⟩; simp at h)

/-- When the key gate lets the request through, the /deploy handler is
the rest of the pipeline applied to the request fields. -/
theorem deploy_gate_pass_eq (env : DeployEnv) (h : deployGatePasses env = true) :
    deploy_to_netlify env = deployAfterGate env.hasZipFile env.filenameEmpty env.netlifyPat
      env.zipValid env.zipTree env.createOutcome env.deployOutcome env.lateException
      env.rmtreeOk := by
  unfold deploy_to_netlify
  unfold deployGatePasses at h
  cases hres : resolvedApiKey env with
  | none => rfl
  | some s =>
    rw [hres] at h
    by_cases hs : (s == "") = true
    · simp [hs]
    · have hs2 : (s == "") = false := by revert hs; cases (s == "") <;> simp
      simp only [hs2, Bool.false_or] at h
      simp [hs2, h]

/-! ## Claim C4 -/

/-- Claim C4: when no index.html exists at the root, the first HTML file
in walk order is copied to the root as index.html with identical bytes;
with no HTML file the tree is unchanged; an existing root index.html is
left alone; the pipeline still makes the provider calls whatever the
tree holds; and a zip holding only about.htm ends with a root index.html
byte-identical to about.htm. -/
theorem ensure_entry_point_spec :
    (∀ (root : List (String × Entry)) (n : String) (b : List Nat)
        (rest : List (String × List Nat)),
      hasEntry root "index.html" = false → htmlFilesOf root = (n, b) :: rest →
      ensureIndexHtml root = root ++ [("index.html", Entry.file b)]) ∧
    (∀ (root : List (String × Entry)),
      hasEntry root "index.html" = false → htmlFilesOf root = [] →
      ensureIndexHtml root = root) ∧
    (∀ (root : List (String × Entry)),
      hasEntry root "index.html" = true → ensureIndexHtml root = root) ∧
    (∀ (env : DeployEnv), deployGatePasses env = true → env.hasZipFile = true →
      env.filenameEmpty = false → ∀ p, env.netlifyPat = some p → env.zipValid = true →
      (deploy_to_netlify env).createCalled = true) ∧
    (∀ (bytes : List Nat),
      lookupEntry (processExtractedTree [("about.htm", Entry.file bytes)]) "index.html" =
        some (Entry.file bytes)) := by
  refine ⟨?_, ?_, ?_, ?_, ?_⟩
  · intro root n b rest h1 h2
    simp [ensureIndexHtml, h1, h2]
  · intro root h1 h2
    simp [ensureIndexHtml, h1, h2]
  · intro root h1
    simp [ensureIndexHtml, h1]
  · intro env hg hz hf p hp hv
    rw [deploy_gate_pass_eq env hg, hz, hf, hp, hv]
    cases env.createOutcome with
    | ok =>
      cases env.deployOutcome with
      | ok => cases env.lateException <;> rfl
      | httpError c body => rfl
      | netError => rfl
    | httpError c body => rfl
    | netError => rfl
  · intro bytes
    simp [processExtractedTree, flattenSingleRoot, ensureIndexHtml, hasEntry, htmlFilesOf,
      walkFiles, walkSubdirs, listingFiles, isHtmlName, pyEndsWith, pyLower, lookupEntry]

/-- Witness for C4 at concrete trees and a concrete deployment. -/
theorem ensure_entry_point_spec_witness :
    ensureIndexHtml [("about.htm", Entry.file [7])] =
      [("about.htm", Entry.file [7]), ("index.html", Entry.file [7])] ∧
    ensureIndexHtml [("readme.txt", Entry.file [3])] = [("readme.txt", Entry.file [3])] ∧
    ensureIndexHtml [("index.html", Entry.file [9])] = [("index.html", Entry.file [9])] ∧
    (deploy_to_netlify ⟨none, none, true, false, some "tok", true,
      [("readme.txt", Entry.file [3])], HttpOutcome.ok, HttpOutcome.ok, false, true⟩).createCalled = true ∧
    lookupEntry (processExtractedTree [("about.htm", Entry.file [7])]) "index.html" =
      some (Entry.file [7]) :=
  ⟨ensure_entry_point_spec.1 [("about.htm", Entry.file [7])] "about.htm" [7] [] rfl
      (by simp [htmlFilesOf, walkFiles, walkSubdirs, listingFiles, isHtmlName, pyEndsWith,
        pyLower, startsWithChars]),
   ensure_entry_point_spec.2.1 [("readme.txt", Entry.file [3])] rfl
      (by simp [htmlFilesOf, walkFiles, walkSubdirs, listingFiles, isHtmlName, pyEndsWith,
        pyLower, startsWithChars]),
   ensure_entry_point_spec.2.2.1 [("index.html", Entry.file [9])] rfl,
   ensure_entry_point_spec.2.2.2.1 ⟨none, none, true, false, some "tok", true,
      [("readme.txt", Entry.file [3])], HttpOutcome.ok, HttpOutcome.ok, false, true⟩ rfl rfl rfl "tok" rfl
      rfl,
   ensure_entry_point_spec.2.2.2.2 [7]⟩

/-! ## Claim C5 -/

/-- In the pipeline after the gate, the temporary directory ends up
removed exactly when it was created and the rmtree call of the
`finally` succeeded. -/
theorem deployAfterGate_temp_char (hz fe : Bool) (pat : Option String) (zv : Bool)
    (tree : List (String × Entry)) (co dO : HttpOutcome) (le rm : Bool) :
    (deployAfterGate hz fe pat zv tree co dO le rm).tempRemoved =
      ((deployAfterGate hz fe pat zv tree co dO le rm).tempCreated && rm) := by
  cases hz <;> cases fe <;> cases pat <;> cases zv <;> cases co <;> cases dO <;>
    cases le <;> cases rm <;> rfl

/-- Counterexample to C5 as stated: when the rmtree call of the
`finally` fails, the failure is swallowed (server.py lines 308-309) and
the handler returns with the created directory still present. -/
theorem deploy_temp_cleanup_counterexample :
    (deploy_to_netlify ⟨none, none, true, false, some "tok", true,
      [("index.html", Entry.file [1])], HttpOutcome.ok, HttpOutcome.ok,
      false, false⟩).tempCreated = true ∧
    (deploy_to_netlify ⟨none, none, true, false, some "tok", true,
      [("index.html", Entry.file [1])], HttpOutcome.ok, HttpOutcome.ok,
      false, false⟩).tempRemoved = false :=
  ⟨rfl, rfl⟩

/-- Amended C5: on every exit path of the /deploy handler - success,
invalid zip, provider failure, and the generic unexpected-exception
exit alike - the `finally` attempts removal of the created temporary
directory, and the directory ends up removed exactly when it was
created and the rmtree call itself succeeds; an rmtree failure is
swallowed and leaves the directory behind. -/
theorem deploy_temp_cleanup_amended (env : DeployEnv) :
    (deploy_to_netlify env).tempRemoved =
      ((deploy_to_netlify env).tempCreated && env.rmtreeOk) := by
  unfold deploy_to_netlify
  cases resolvedApiKey env with
  | none => exact deployAfterGate_temp_char _ _ _ _ _ _ _ _ _
  | some s =>
    by_cases hs : (s == "") = true
    · simp only [hs, if_true]
      exact deployAfterGate_temp_char _ _ _ _ _ _ _ _ _
    · have hs2 : (s == "") = false := by revert hs; cases (s == "") <;> simp
      simp only [hs2, Bool.false_eq_true, if_false]
      by_cases hv : (is_api_key_valid (PyVal.vstr s)).1 = true
      · simp only [hv, if_true]
        exact deployAfterGate_temp_char _ _ _ _ _ _ _ _ _
      · have hv2 : (is_api_key_valid (PyVal.vstr s)).1 = false := by
          revert hv; cases (is_api_key_valid (PyVal.vstr s)).1 <;> simp
        simp only [hv2, Bool.false_eq_true, if_false]
        exact (Bool.false_and _).symm

/-! ## Claim C6 -/

/-- Claim C6: when an outbound provider call fails with a response
attached, /deploy returns that status verbatim with the response body in
the error details; with no response attached it returns 500. -/
theorem deploy_provider_error_propagation (env : DeployEnv)
    (hg : deployGatePasses env = true) (hz : env.hasZipFile = true)
    (hf : env.filenameEmpty = false) (p : String) (hp : env.netlifyPat = some p)
    (hv : env.zipValid = true) :
    (∀ c body, env.createOutcome = HttpOutcome.httpError c body →
      (deploy_to_netlify env).status = c ∧ (deploy_to_netlify env).details = some body) ∧
    (env.createOutcome = HttpOutcome.netError → (deploy_to_netlify env).status = 500) ∧
    (env.createOutcome = HttpOutcome.ok →
      (∀ c body, env.deployOutcome = HttpOutcome.httpError c body →
        (deploy_to_netlify env).status = c ∧ (deploy_to_netlify env).details = some body) ∧
      (env.deployOutcome = HttpOutcome.netError → (deploy_to_netlify env).status = 500)) := by
  rw [deploy_gate_pass_eq env hg, hz, hf, hp, hv]
  refine ⟨?_, ?_, ?_⟩
  · intro c body hc
    rw [hc]
    exact ⟨rfl, rfl⟩
  · intro hc
    rw [hc]
    rfl
  · intro hc
    rw [hc]
    refine ⟨?_, ?_⟩
    · intro c body hd
      rw [hd]
      exact ⟨rfl, rfl⟩
    · intro hd
      rw [hd]
      rfl

/-- Witness for C6: a 422 from the site-creation call is passed through
with its body. -/
theorem deploy_provider_error_propagation_witness :
    (deploy_to_netlify ⟨none, none, true, false, some "tok", true,
      [("index.html", Entry.file [1])], HttpOutcome.httpError 422 "boom",
      HttpOutcome.ok, false, true⟩).status = 422 ∧
    (deploy_to_netlify ⟨none, none, true, false, some "tok", true,
      [("index.html", Entry.file [1])], HttpOutcome.httpError 422 "boom",
      HttpOutcome.ok, false, true⟩).details = some "boom" :=
  (deploy_provider_error_propagation ⟨none, none, true, false, some "tok", true,
    [("index.html", Entry.file [1])], HttpOutcome.httpError 422 "boom", HttpOutcome.ok, false, true⟩
    rfl rfl rfl "tok" rfl rfl).1 422 "boom" rfl

/-! ## Claim C7 -/

/-- Claim C7: an upload that is not a valid zip (with a file selected and
the hosting credential configured, and the key gate passing) yields 400
with the invalid-zip error, and neither provider call is made. -/
theorem deploy_invalid_zip_400 (env : DeployEnv)
    (hg : deployGatePasses env = true) (hz : env.hasZipFile = true)
    (hf : env.filenameEmpty = false) (p : String) (hp : env.netlifyPat = some p)
    (hv : env.zipValid = false) :
    (deploy_to_netlify env).status = 400 ∧
    (deploy_to_netlify env).errorMsg = some "Invalid zip file provided" ∧
    (deploy_to_netlify env).createCalled = false ∧
    (deploy_to_netlify env).deployCalled = false := by
  rw [deploy_gate_pass_eq env hg, hz, hf, hp, hv]
  exact ⟨rfl, rfl, rfl, rfl⟩

/-- Witness for C7 at a concrete invalid-zip request. -/
theorem deploy_invalid_zip_400_witness :
    (deploy_to_netlify ⟨none, none, true, false, some "pat-token", false, [],
      HttpOutcome.ok, HttpOutcome.ok, false, true⟩).status = 400 ∧
    (deploy_to_netlify ⟨none, none, true, false, some "pat-token", false, [],
      HttpOutcome.ok, HttpOutcome.ok, false, true⟩).errorMsg = some "Invalid zip file provided" ∧
    (deploy_to_netlify ⟨none, none, true, false, some "pat-token", false, [],
      HttpOutcome.ok, HttpOutcome.ok, false, true⟩).createCalled = false ∧
    (deploy_to_netlify ⟨none, none, true, false, some "pat-token", false, [],
      HttpOutcome.ok, HttpOutcome.ok, false, true⟩).deployCalled = false :=
  deploy_invalid_zip_400 ⟨none, none, true, false, some "pat-token", false, [],
    HttpOutcome.ok, HttpOutcome.ok, false, true⟩ rfl rfl rfl "pat-token" rfl rfl
